import Mathlib

/-!
Verification of the effigy builder/introspection subsystem.

This file shallowly embeds the schema-synthesis core of the effigy
repository (src/effigy/builder/core.py, relationship.py, index.py and
src/effigy/entity.py) and proves properties of it.  Python type
annotations are modelled by the inductive `PyType`; SQLAlchemy column
specifications are modelled by the record `SAColumn` holding exactly the
arguments the code passes to `Column(...)`; raised exceptions are
modelled by `BuilderError` values, returned through `Except` (or, for
methods that mutate state before possibly raising, as a post-state paired
with an optional error).  Quote characters that the original f-strings
place around interpolated names are elided from the modelled messages.
-/

deriving instance DecidableEq for Except

namespace Effigy

/-- Non-generic Python classes appearing in annotations: the four
mapped scalar types, `type(None)`, and arbitrary other classes (which
table synthesis maps to a text column). -/
inductive PyScalar where
  | int
  | str
  | bool
  | float
  | noneType
  | other (name : String)
deriving DecidableEq, Repr

/-- Python type annotations as seen by the builder after
`get_type_hints`.  `union` models both `typing.Union` and PEP-604
`X | Y` (the code treats the two identically); union members are
non-generic classes, which covers every annotation the builder's column
path distinguishes. -/
inductive PyType where
  | scalar (s : PyScalar)
  | union (args : List PyScalar)
  | list (arg : PyType)
  | dict (key val : PyType)
  | set (arg : PyType)
deriving DecidableEq, Repr

/-- The possible results of `typing.get_origin` on a `PyType`. -/
inductive PyOrigin where
  | union
  | list
  | dict
  | set
deriving DecidableEq, Repr

/-- `typing.get_origin`: scalar types have no origin. -/
def getOrigin : PyType → Option PyOrigin
  | .union _ => some .union
  | .list _ => some .list
  | .dict _ _ => some .dict
  | .set _ => some .set
  | _ => none

/-- `t.__args__` as a list (empty when the annotation has no
`__args__` attribute). -/
def pyArgs : PyType → List PyType
  | .union args => args.map .scalar
  | .list a => [a]
  | .dict k v => [k, v]
  | .set a => [a]
  | _ => []

/-- A printable rendering of a class, standing in for Python's string
formatting inside error messages. -/
def PyScalar.render : PyScalar → String
  | .int => "int"
  | .str => "str"
  | .bool => "bool"
  | .float => "float"
  | .noneType => "NoneType"
  | .other n => n

/-- A printable rendering of an annotation, standing in for Python's
`str(field_type)` inside error messages. -/
def PyType.render : PyType → String
  | .scalar s => s.render
  | .union args => "Union[" ++ String.intercalate ", " (args.map PyScalar.render) ++ "]"
  | .list a => "list[" ++ a.render ++ "]"
  | .dict k v => "dict[" ++ k.render ++ ", " ++ v.render ++ "]"
  | .set a => "set[" ++ a.render ++ "]"

/-- SQLAlchemy column types used by the builder (`_TYPE_MAP` plus the
bounded `String(max_length)` form). -/
inductive SAType where
  | integer
  | string (maxLength : Option Nat)
  | boolean
  | float
deriving DecidableEq, Repr

/-- `_TYPE_MAP.get(nonnull_type, String)`: defaults to `String` when the
type cannot be deduced. -/
def saTypeMap : PyType → SAType
  | .scalar .int => .integer
  | .scalar .str => .string none
  | .scalar .bool => .boolean
  | .scalar .float => .float
  | _ => .string none

/-- The `autoincrement` argument passed to `Column`: the code passes
`autoincrement if autoincrement else "auto"`, i.e. either the literal
`True` or the string sentinel `"auto"`. -/
inductive AutoIncArg where
  | auto
  | enabled
deriving DecidableEq, Repr

/-- The column specification handed to the relational engine: exactly
the keyword arguments the code passes to `Column(...)`.  `foreign_key`
records the target of a `ForeignKey(...)` positional argument when one
is given (association tables only). -/
structure SAColumn where
  name : String
  typ : SAType
  primary_key : Bool
  nullable : Bool
  unique : Bool
  default : Option String
  server_default : Option String
  autoincrement : AutoIncArg
  foreign_key : Option String := none
deriving DecidableEq, Repr

/-- Exceptions raised by the builder. -/
inductive BuilderError where
  | valueError (msg : String)
  | typeError (msg : String)
  | attributeError (msg : String)
deriving DecidableEq, Repr

/-- Per-field override flags (`PropertyConfiguration` in
builder/property.py).  The `_validators` list holds opaque predicates
that table synthesis never consumes, so it is left out of the model.
Default values model the constructor's initialisation. -/
structure PropertyConfiguration where
  property_name : String
  required : Bool := false
  autoincrement : Bool := false
  max_length : Option Nat := none
  default : Option String := none
  server_default : Option String := none
  unique : Bool := false
deriving DecidableEq, Repr

/-- Python `str.startswith`. -/
def strStartsWith (s t : String) : Bool :=
  t.data.isPrefixOf s.data

/-- First-match lookup in an insertion-ordered association list,
modelling Python `dict` lookup (keys are unique by construction). -/
def alistLookup {α : Type} (l : List (String × α)) (k : String) : Option α :=
  match l with
  | [] => none
  | (k', v) :: rest => if k' = k then some v else alistLookup rest k

/-- The message of the autoincrement validation error
(core.py lines 176-179). -/
def autoincrementErrMsg (field_name : String) : String :=
  "Database-generated values require an optional type. " ++
    "Autoincrementing field " ++ field_name ++ " must be defined as int | None"

/-- `_EntityConfiguration._validate_autoincrement`: autoincrementing
fields must be declared as an optional-integer union. -/
def validateAutoincrement (field_name : String) (field_type : PyType)
    (autoincrement : Bool) : Except BuilderError Unit :=
  if !autoincrement then .ok ()
  else
    match field_type with
    | .union args =>
      -- need to type autoincrementing primary keys as int | None
      if args.contains .noneType && args.contains .int then .ok ()
      else .error (.typeError (autoincrementErrMsg field_name))
    | _ => .error (.typeError (autoincrementErrMsg field_name))

/-- Message for a union that mixes `None` with more than one other type
(core.py lines 238-243). -/
def unsupportedOptionalUnionMsg (entity_name field_name : String) (field_type : PyType) : String :=
  "Entity " ++ entity_name ++ " field " ++ field_name ++ " has unsupported union type: " ++
    field_type.render ++ ". Union types (other than Optional[T]) are not supported in ORMs. " ++
    "Database columns must have a single type. Use Optional[T] for nullable columns, not Union[T, U, ...]."

/-- Message for a union that does not contain `None` at all
(core.py lines 250-255). -/
def unsupportedUnionMsg (entity_name field_name : String) (field_type : PyType) : String :=
  "Entity " ++ entity_name ++ " field " ++ field_name ++ " has unsupported union type: " ++
    field_type.render ++ ". Union types are not supported in ORMs. " ++
    "Database columns must have a single type. If the field is optional, use Optional[T] or T | None."

/-- The nullability/union classification block of
`_EntityConfiguration._create_table` (core.py lines 218-255), producing
`(is_nullable, nonnull_type)`.  The `origin is type(None)` branch of the
source is unreachable (`get_origin` never returns `NoneType`) and is
therefore not represented.  The guard mirrors
`origin is Union or (hasattr(field_type, "__args__") and len(...) > 1)`. -/
def classifyOptionality (entity_name field_name : String) (field_type : PyType) :
    Except BuilderError (Bool × PyType) :=
  if getOrigin field_type = some .union || (pyArgs field_type).length > 1 then
    let args := pyArgs field_type
    if args.contains (PyType.scalar .noneType) then
      let non_none_args := args.filter (fun a => !(a == PyType.scalar .noneType))
      if non_none_args.length > 1 then
        .error (.typeError (unsupportedOptionalUnionMsg entity_name field_name field_type))
      else
        .ok (true, non_none_args.headD field_type)
    else
      .error (.typeError (unsupportedUnionMsg entity_name field_name field_type))
  else
    .ok (false, field_type)

/-- Message for `max_len()` applied to a non-string field
(core.py lines 275-278). -/
def maxLenMsg (entity_name field_name : String) (nonnull_type : PyType) : String :=
  "Entity " ++ entity_name ++ " field " ++ field_name ++
    ": max_len() can only be used on string (str) fields, not " ++ nonnull_type.render

/-- The body of the per-field loop of
`_EntityConfiguration._create_table` (core.py lines 207-299): returns
`none` for skipped fields, `some column` for emitted ones, or the raised
error. -/
def processField (entity_name : String) (pks : List String)
    (properties : List (String × PropertyConfiguration))
    (field_name : String) (field_type : PyType) :
    Except BuilderError (Option SAColumn) :=
  -- skip private attributes and special attributes
  if strStartsWith field_name "_" then .ok none
  -- these are likely relationships
  else if getOrigin field_type = some .list ∨ getOrigin field_type = some .dict ∨
      getOrigin field_type = some .set then .ok none
  else do
    let (is_nullable, nonnull_type) ← classifyOptionality entity_name field_name field_type
    -- default to string if we cannot deduce what the type is
    let sa_type := saTypeMap nonnull_type
    let is_primary := pks.contains field_name
    match alistLookup properties field_name with
    | some prop_config =>
      let nullable := is_nullable && !prop_config.required
      let unique := prop_config.unique
      let defaultv := prop_config.default
      let autoincrement := prop_config.autoincrement
      let server_default := prop_config.server_default
      -- apply max_length to string-type cols
      let sa_type' ← (match prop_config.max_length with
        | some ml =>
          if nonnull_type = PyType.scalar .str then
            Except.ok (SAType.string (some ml))
          else
            Except.error (BuilderError.valueError (maxLenMsg entity_name field_name nonnull_type))
        | none => Except.ok sa_type)
      validateAutoincrement field_name field_type autoincrement
      .ok (some { name := field_name, typ := sa_type', primary_key := is_primary,
                  nullable := nullable, unique := unique, default := defaultv,
                  server_default := server_default,
                  autoincrement := if autoincrement then .enabled else .auto })
    | none =>
      -- default configuration values (assumed)
      let nullable := is_nullable && !is_primary
      validateAutoincrement field_name field_type false
      .ok (some { name := field_name, typ := sa_type, primary_key := is_primary,
                  nullable := nullable, unique := false, default := none,
                  server_default := none, autoincrement := .auto })

/-- One index request (`IndexConfiguration` in builder/index.py). -/
structure IndexConfiguration where
  columns : List String
  unique : Bool
  name : Option String
deriving DecidableEq, Repr

/-- The relationship kinds (builder/relationship.py). -/
inductive RelationshipType where
  | ONE_TO_MANY
  | MANY_TO_ONE
  | MANY_TO_MANY
deriving DecidableEq, Repr

/-- The string payload of the enum (`RelationshipType(str, Enum)`). -/
def RelationshipType.value : RelationshipType → String
  | .ONE_TO_MANY => "otm"
  | .MANY_TO_ONE => "mto"
  | .MANY_TO_MANY => "mtm"

/-- The identity of an entity class as the relationship code consumes
it: its `__name__`, its `__tablename__`, and the keys of its
`__annotations__` (used by `_EntityProxy` validation). -/
structure EntityRef where
  name : String
  tablename : String
  annotation_keys : List String
deriving DecidableEq, Repr

/-- The first `__args__` entry of a navigation annotation: either an
already-loaded class or a string forward reference. -/
inductive NavTarget where
  | cls (e : EntityRef)
  | fwd (name : String)
deriving DecidableEq, Repr

/-- A navigation-property annotation as `_determine_related_entity`
inspects it: either a bare class (no `__args__`) or a parameterized
generic whose first argument is taken. -/
inductive NavType where
  | plain (e : EntityRef)
  | generic (arg0 : NavTarget)
deriving DecidableEq, Repr

/-- Builder-side relationship state (`RelationshipConfiguration`).
The back-references to the entity configuration are omitted; the
declaring entity is represented by its name (for error messages).
Default values model the constructor. -/
structure RelationshipConfiguration where
  navigation_name : String
  relationship_type : RelationshipType
  entity_name : String
  fk_prop : Option String := none
  inverse_prop : Option String := none
  related_entity : Option EntityRef := none
  cascade : String := "save-update, merge"
  lazy : String := "select"
  back_populates : Option String := none
deriving DecidableEq, Repr

/-- Builder-side per-entity state (`_EntityConfiguration`): primary-key
names in declaration order, the insertion-ordered property map, and the
accumulated index requests.  (The relationship list is modelled by
standalone `RelationshipConfiguration` values since no claim reads it
from the entity configuration.) -/
structure EntityConfiguration where
  pks : List String := []
  properties : List (String × PropertyConfiguration) := []
  indexes : List IndexConfiguration := []
deriving DecidableEq, Repr

/-- `_EntityProxy.__getattribute__`: a navigation lambda resolves to
the accessed attribute name, after validating that the name is a
declared annotation of the entity. -/
def proxyResolve (entity_name : String) (annotation_keys : List String)
    (nav : String) : Except BuilderError String :=
  if annotation_keys.contains nav then .ok nav
  else
    let available := String.intercalate ", " annotation_keys
    .error (.attributeError ("Property " ++ nav ++ " does not exist on entity " ++
      entity_name ++ ". Available properties: " ++
      (if available = "" then "(none)" else available)))

/-- `_EntityConfiguration.property` / `_get_property_config_by_keyname`:
look up the property configuration by name, creating a fresh one when
absent. -/
def ensureProperty (cfg : EntityConfiguration) (prop_name : String) : EntityConfiguration :=
  match alistLookup cfg.properties prop_name with
  | some _ => cfg
  | none =>
    { cfg with properties := cfg.properties ++ [(prop_name, { property_name := prop_name })] }

/-- `PropertyConfiguration.autoincrement()` applied to the named entry. -/
def setPropAutoincrement (cfg : EntityConfiguration) (prop_name : String) : EntityConfiguration :=
  let props := cfg.properties.map
    (fun p => if p.1 = prop_name then (p.1, { p.2 with autoincrement := true }) else p)
  { cfg with properties := props }

/-- The per-navigation loop of `has_key`: resolve the key name through
the proxy, get-or-create its property configuration, append it to the
primary-key list, and set the autoincrement flag when requested.
Mutations from earlier iterations survive a later raise, matching
Python's in-place semantics. -/
def hasKeyLoop (entity_name : String) (annotation_keys : List String)
    (cfg : EntityConfiguration) (navigations : List String) (autoincrement : Bool) :
    EntityConfiguration × Option BuilderError :=
  match navigations with
  | [] => (cfg, none)
  | nav :: rest =>
    match proxyResolve entity_name annotation_keys nav with
    | .error e => (cfg, some e)
    | .ok keyname =>
      let cfg1 := ensureProperty cfg keyname
      let cfg2 := { cfg1 with pks := cfg1.pks ++ [keyname] }
      let cfg3 := if autoincrement then setPropAutoincrement cfg2 keyname else cfg2
      hasKeyLoop entity_name annotation_keys cfg3 rest autoincrement

/-- `_EntityConfiguration.has_key` (core.py lines 75-95).  Returns the
post-call configuration and the raised error, if any. -/
def hasKey (entity_name : String) (annotation_keys : List String)
    (cfg : EntityConfiguration) (navigations : List String) (autoincrement : Bool) :
    EntityConfiguration × Option BuilderError :=
  if navigations.length = 0 then
    (cfg, some (.valueError "Must specify at least one primary key"))
  else if autoincrement && navigations.length > 1 then
    (cfg, some (.valueError "Autoincrement only supported on single-column primary keys"))
  else hasKeyLoop entity_name annotation_keys cfg navigations autoincrement

/-- `_EntityConfiguration.has_index` (core.py lines 142-161): the
zero-field check precedes navigation resolution, which precedes the
construction of the `IndexConfiguration`. -/
def hasIndex (entity_name : String) (annotation_keys : List String)
    (cfg : EntityConfiguration) (navigations : List String) (unique : Bool)
    (name : Option String) : EntityConfiguration × Option BuilderError :=
  if navigations.length = 0 then
    (cfg, some (.valueError "Must specify at least one field to index"))
  else
    match navigations.mapM (proxyResolve entity_name annotation_keys) with
    | .error e => (cfg, some e)
    | .ok field_names =>
      ({ cfg with indexes := cfg.indexes ++
          [{ columns := field_names, unique := unique, name := name }] }, none)

/-- A synthesized table: named column set registered with the schema
metadata. -/
structure Table where
  name : String
  columns : List SAColumn
deriving DecidableEq, Repr

/-- The shared schema registry (`sqlalchemy.MetaData`): tables keyed by
name in creation order. -/
structure MetaData where
  tables : List (String × Table)
deriving DecidableEq, Repr

/-- How many tables of the given name the registry holds. -/
def countTables (md : MetaData) (n : String) : Nat :=
  (md.tables.filter (fun p => p.1 = n)).length

/-- An entity class declaration: `__name__` and the `__tablename__` the
decorator installed. -/
structure EntityType where
  name : String
  tablename : String
deriving DecidableEq, Repr

/-- The mutable framework-injected state of an entity class:
`__table__` (absent until table synthesis) and whether `__mapper__` is
present (set by `map_imperatively`). -/
structure EntityState where
  etype : EntityType
  table : Option Table := none
  mapped : Bool := false
deriving DecidableEq, Repr

/-- The field loop of `_create_table` over all type hints, in
declaration order, collecting the emitted columns. -/
def processFields (entity_name : String) (pks : List String)
    (properties : List (String × PropertyConfiguration)) :
    List (String × PyType) → Except BuilderError (List SAColumn)
  | [] => .ok []
  | (field_name, field_type) :: rest => do
    let c ← processField entity_name pks properties field_name field_type
    let cs ← processFields entity_name pks properties rest
    match c with
    | some col => .ok (col :: cs)
    | none => .ok cs

/-- `_EntityConfiguration._create_table` (core.py lines 181-310).
Returns the post state, the updated metadata, and whether
`map_imperatively` was invoked.  (The engine-side duplicate-table-name
check of `Table(...)` is not modelled: each finalize run uses a fresh
`MetaData`, so the code never constructs a duplicate name.) -/
def createTable (cfg : EntityConfiguration) (st : EntityState)
    (type_hints : List (String × PyType)) (md : MetaData) :
    Except BuilderError (EntityState × MetaData × Bool) :=
  let table_name := st.etype.tablename
  if table_name = "" then
    .error (.valueError ("Entity " ++ st.etype.name ++ " has no table name configured"))
  else if cfg.pks.isEmpty then
    .error (.valueError ("Table " ++ table_name ++ " must have at least one primary key"))
  else do
    let columns ← processFields st.etype.name cfg.pks cfg.properties type_hints
    let table : Table := { name := table_name, columns := columns }
    let md' : MetaData := { tables := md.tables ++ [(table_name, table)] }
    let st' := { st with table := some table }
    -- Only map if not already mapped (to support multiple context instances)
    if st.mapped then .ok (st', md', false)
    else .ok ({ st' with mapped := true }, md', true)

/-- `_create_table` under Python exception semantics: every state
mutation in the source happens after the last possible raise, so a
raising call leaves the entity state and metadata unchanged. -/
def createTableRun (cfg : EntityConfiguration) (st : EntityState)
    (type_hints : List (String × PyType)) (md : MetaData) :
    EntityState × MetaData × Bool :=
  match createTable cfg st type_hints md with
  | .ok r => r
  | .error _ => (st, md, false)

/-- The auto-generated index name of `IndexConfiguration.create_index`. -/
def autoIndexName (idx : IndexConfiguration) (table_name : String) : String :=
  let pfx := if idx.unique then "uq" else "ix"
  let col_names := String.intercalate "_" idx.columns
  pfx ++ "_" ++ table_name ++ "_" ++ col_names

/-- A created index. -/
structure Index where
  name : String
  columns : List String
  unique : Bool
deriving DecidableEq, Repr

/-- `IndexConfiguration.create_index` (builder/index.py lines 10-19).
`table.c[col]` raises on a column absent from the table; the
`if self._name:` truthiness test treats an empty-string name like an
absent one. -/
def createIndex (idx : IndexConfiguration) (table : Table) (table_name : String) :
    Except BuilderError Index :=
  if idx.columns.all (fun c => table.columns.any (fun col => col.name = c)) then
    let index_name :=
      match idx.name with
      | some n => if n = "" then autoIndexName idx table_name else n
      | none => autoIndexName idx table_name
    .ok { name := index_name, columns := idx.columns, unique := idx.unique }
  else
    .error (.attributeError ("Column not found on table " ++ table_name))

/-- `RelationshipConfiguration._determine_related_entity`
(relationship.py lines 187-238), with the declaring module's namespace
passed explicitly for forward-reference lookup. -/
def determineRelatedEntity (entity_name : String)
    (anns : List (String × NavType)) (module_ns : List (String × EntityRef))
    (navigation_name : String) : Except BuilderError EntityRef :=
  match alistLookup anns navigation_name with
  | none =>
    .error (.valueError ("Navigation property " ++ navigation_name ++
      " not found on entity " ++ entity_name ++ ". Available properties: " ++
      String.intercalate ", " (anns.map (fun p => p.1))))
  | some navtype =>
    match navtype with
    | .generic (.fwd s) =>
      match alistLookup module_ns s with
      | some re => .ok re
      | none =>
        .error (.valueError ("Cannot resolve forward reference " ++ s ++
          " for relationship " ++ navigation_name ++ " on entity " ++ entity_name ++
          ". Ensure the referenced entity " ++ s ++ " is defined at module level."))
    | .generic (.cls re) => .ok re
    | .plain re => .ok re

/-- The bidirectional-setup tail of `with_many`: resolve the inverse
navigation on the related entity through a proxy and record it as both
`_inverse_prop` and `_back_populates`. -/
def withManyProxyStep (rel : RelationshipConfiguration) (re : EntityRef) (nav : String) :
    RelationshipConfiguration × Option BuilderError :=
  match proxyResolve re.name re.annotation_keys nav with
  | .error e => (rel, some e)
  | .ok backpop =>
    ({ rel with inverse_prop := some backpop, back_populates := some backpop }, none)

/-- The message of the `with_many` kind-check error (relationship.py
lines 144-147). -/
def withManyErrMsg (rt : RelationshipType) : String :=
  "with_many() can only be called on one-to-many relationships. " ++
    "Current relationship type is " ++ rt.value ++ "."

/-- `RelationshipConfiguration.with_many` (relationship.py lines
125-160).  Returns the post-call state and the raised error, if any:
the kind is mutated to many-to-many before the optional inverse
navigation is resolved, so a resolution failure still leaves the kind
changed. -/
def withMany (rel : RelationshipConfiguration) (navigation : Option String)
    (anns : List (String × NavType)) (module_ns : List (String × EntityRef)) :
    RelationshipConfiguration × Option BuilderError :=
  if rel.relationship_type ≠ RelationshipType.ONE_TO_MANY then
    (rel, some (.valueError (withManyErrMsg rel.relationship_type)))
  else
    let rel1 := { rel with relationship_type := RelationshipType.MANY_TO_MANY }
    match navigation with
    | none => (rel1, none)
    | some nav =>
      match rel1.related_entity with
      | some re => withManyProxyStep rel1 re nav
      | none =>
        match determineRelatedEntity rel1.entity_name anns module_ns rel1.navigation_name with
        | .error e => (rel1, some e)
        | .ok re => withManyProxyStep { rel1 with related_entity := some re } re nav

/-- Lexicographic order on code-point sequences: Python's `str`
comparison. -/
def charListLe : List Char → List Char → Bool
  | [], _ => true
  | _ :: _, [] => false
  | a :: as, b :: bs =>
    if a.toNat < b.toNat then true
    else if b.toNat < a.toNat then false
    else charListLe as bs

/-- Python string comparison. -/
def strLe (a b : String) : Bool :=
  charListLe a.data b.data

/-- Python `sorted([a, b])` for two strings (lexicographic order on
code points). -/
def sortedPair (a b : String) : String × String :=
  if strLe a b then (a, b) else (b, a)

/-- The association-table name: the two table names sorted and joined
with an underscore. -/
def assocTableName (a b : String) : String :=
  (sortedPair a b).1 ++ "_" ++ (sortedPair a b).2

/-- `RelationshipConfiguration._create_association_table`
(relationship.py lines 240-299), with the two entities' states passed
in place of the attribute reads.  Columns the source leaves to
SQLAlchemy defaults (`nullable = not primary_key`, no uniqueness, no
defaults) are spelled out. -/
def createAssociationTable (current related : EntityState) (md : MetaData) :
    Except BuilderError (Table × MetaData) :=
  let current_table_name := current.etype.tablename
  let related_table_name := related.etype.tablename
  let association_table_name := assocTableName current_table_name related_table_name
  match alistLookup md.tables association_table_name with
  | some t => .ok (t, md)
  | none =>
    match current.table, related.table with
    | some current_table, some related_table =>
      let current_pk_cols := current_table.columns.filter (fun c => c.primary_key)
      let related_pk_cols := related_table.columns.filter (fun c => c.primary_key)
      match current_pk_cols, related_pk_cols with
      | cpk :: _, rpk :: _ =>
        let current_fk_name := current_table_name ++ "_" ++ cpk.name
        let related_fk_name := related_table_name ++ "_" ++ rpk.name
        let association_table : Table :=
          { name := association_table_name,
            columns :=
              [{ name := current_fk_name, typ := cpk.typ, primary_key := true,
                 nullable := false, unique := false, default := none,
                 server_default := none, autoincrement := .auto,
                 foreign_key := some (current_table_name ++ "." ++ cpk.name) },
               { name := related_fk_name, typ := rpk.typ, primary_key := true,
                 nullable := false, unique := false, default := none,
                 server_default := none, autoincrement := .auto,
                 foreign_key := some (related_table_name ++ "." ++ rpk.name) }] }
        .ok (association_table,
             { tables := md.tables ++ [(association_table_name, association_table)] })
      | _, _ =>
        .error (.valueError ("Cannot create association table for many-to-many relationship. " ++
          "Both entities must have primary keys defined."))
    | _, _ =>
      .error (.attributeError "Entity has no table attribute")

/-- Python `str.endswith`. -/
def strEndsWith (s t : String) : Bool :=
  t.data.reverse.isPrefixOf s.data.reverse

/-- Membership in the vowel string `"aeiou"`. -/
def isVowel (c : Char) : Bool :=
  c = 'a' || c = 'e' || c = 'i' || c = 'o' || c = 'u'

/-- Python `str.lower()` (per-character). -/
def pyLower (s : String) : String :=
  String.mk (s.data.map Char.toLower)

/-- Python's `s[-2] not in "aeiou"` guard (well-defined only under the
`len(s) > 1` short-circuit that precedes it). -/
def prevCharNotVowel (s : String) : Bool :=
  match s.data.dropLast.getLast? with
  | some c => !(isVowel c)
  | none => true

/-- `_pluralize` (entity.py lines 135-142). -/
def pluralize (s : String) : String :=
  if strEndsWith s "y" && decide (1 < s.data.length) && prevCharNotVowel s then
    String.mk s.data.dropLast ++ "ies"
  else if strEndsWith s "z" && decide (1 < s.data.length) && prevCharNotVowel s then
    s ++ "zes"
  else if strEndsWith s "s" || strEndsWith s "x" || strEndsWith s "z" ||
      strEndsWith s "ch" || strEndsWith s "sh" then
    s ++ "es"
  else
    s ++ "s"

/-- The `__tablename__` the `@entity` decorator leaves on the class: the
existing attribute when the class already defines one, else the
pluralized lowercase class name (entity.py lines 120-121). -/
def entityTablename (class_name : String) (existing : Option String) : String :=
  match existing with
  | some t => t
  | none => pluralize (pyLower class_name)

/-- The pluralization rule exactly as claim C10 states it: a trailing
consonant+y becomes "ies", a trailing "s", "x", "z", "ch" or "sh" takes
"es", and anything else takes "s". -/
def claimPluralize (s : String) : String :=
  if strEndsWith s "y" && decide (1 < s.data.length) && prevCharNotVowel s then
    String.mk s.data.dropLast ++ "ies"
  else if strEndsWith s "s" || strEndsWith s "x" || strEndsWith s "z" ||
      strEndsWith s "ch" || strEndsWith s "sh" then
    s ++ "es"
  else
    s ++ "s"

/-- The shape claim C6 describes: a union containing both `int` and
`None` (e.g. `int | None` / `Optional[int]`). -/
def isOptionalIntUnion : PyType → Bool
  | .union args => args.contains .noneType && args.contains .int
  | _ => false

/-! ## Helper lemmas -/

theorem charListLe_total (a b : List Char) :
    charListLe a b = true ∨ charListLe b a = true := by
  induction a generalizing b with
  | nil => left; rfl
  | cons x xs ih =>
    cases b with
    | nil => right; rfl
    | cons y ys =>
      by_cases hxy : x.toNat < y.toNat
      · left; simp [charListLe, hxy]
      · by_cases hyx : y.toNat < x.toNat
        · right; simp [charListLe, hyx]
        · have hx : ¬ x.toNat < y.toNat := hxy
          rcases ih ys with h | h
          · left; simp [charListLe, hx, hyx, h]
          · right; simp [charListLe, hx, hyx, h]

theorem charListLe_antisymm (a b : List Char)
    (hab : charListLe a b = true) (hba : charListLe b a = true) : a = b := by
  induction a generalizing b with
  | nil =>
    cases b with
    | nil => rfl
    | cons y ys => simp [charListLe] at hba
  | cons x xs ih =>
    cases b with
    | nil => simp [charListLe] at hab
    | cons y ys =>
      by_cases hxy : x.toNat < y.toNat
      · simp [charListLe, hxy, Nat.lt_asymm hxy] at hba
      · by_cases hyx : y.toNat < x.toNat
        · simp [charListLe, hxy, hyx] at hab
        · have hx : x = y := by
            have : x.toNat = y.toNat := Nat.le_antisymm (Nat.le_of_not_lt hyx) (Nat.le_of_not_lt hxy)
            exact Char.eq_of_val_eq (UInt32.eq_of_val_eq (Fin.eq_of_val_eq this))
          subst hx
          simp [charListLe, hxy, hyx] at hab hba
          rw [ih ys hab hba]

theorem string_ext {a b : String} (h : a.data = b.data) : a = b := by
  cases a; cases b; exact congrArg String.mk h

theorem sortedPair_comm (a b : String) : sortedPair a b = sortedPair b a := by
  unfold sortedPair
  by_cases hab : strLe a b = true
  · by_cases hba : strLe b a = true
    · have : a = b := string_ext (charListLe_antisymm a.data b.data hab hba)
      subst this; rfl
    · simp [hab, hba]
  · have hba : strLe b a = true := by
      rcases charListLe_total a.data b.data with h | h
      · exact absurd h hab
      · exact h
    simp [hab, hba]

theorem assocTableName_comm (a b : String) : assocTableName a b = assocTableName b a := by
  unfold assocTableName
  rw [sortedPair_comm]

theorem alistLookup_append_self {α : Type} (l : List (String × α)) (k : String) (v : α)
    (h : alistLookup l k = none) : alistLookup (l ++ [(k, v)]) k = some v := by
  induction l with
  | nil => simp [alistLookup]
  | cons p rest ih =>
    by_cases hk : p.1 = k
    · simp [alistLookup, hk] at h
    · simp [alistLookup, hk] at h ⊢
      exact ih h

theorem alistLookup_none_filter {α : Type} (l : List (String × α)) (k : String)
    (h : alistLookup l k = none) : (l.filter (fun p => p.1 = k)).length = 0 := by
  induction l with
  | nil => simp
  | cons p rest ih =>
    by_cases hk : p.1 = k
    · simp [alistLookup, hk] at h
    · simp [alistLookup, hk] at h
      have := ih h
      simp [List.filter, hk, this]

/-! ## Claim theorems -/

/-- C4: a `has_key` call with `autoincrement=True` and more than one
navigation raises a value error containing "Autoincrement only supported
on single-column primary keys" immediately, before any primary-key name
is recorded (the returned configuration is unchanged) and before table
synthesis runs (`has_key` never touches tables). -/
theorem hasKey_autoincrement_composite_raises
    (entity_name : String) (annotation_keys : List String)
    (cfg : EntityConfiguration) (navigations : List String)
    (h : 1 < navigations.length) :
    hasKey entity_name annotation_keys cfg navigations true =
      (cfg, some (.valueError "Autoincrement only supported on single-column primary keys")) := by
  have h0 : ¬ navigations.length = 0 := by omega
  simp [hasKey, h0, h]

/-- Witness for C4: the `OrderLine` composite-key scenario from the
specification. -/
theorem hasKey_autoincrement_composite_raises_witness :
    hasKey "OrderLine" ["order_id", "product_id", "quantity"] {}
      ["order_id", "product_id"] true =
      ({}, some (.valueError "Autoincrement only supported on single-column primary keys")) :=
  hasKey_autoincrement_composite_raises "OrderLine" ["order_id", "product_id", "quantity"] {}
    ["order_id", "product_id"] (by decide)

/-- C6: with the autoincrement flag set, `_validate_autoincrement`
succeeds exactly when the declared annotation is a union containing both
`int` and `None`, and otherwise raises a type error identifying the
field. -/
theorem validateAutoincrement_characterization (field_name : String) (field_type : PyType) :
    (validateAutoincrement field_name field_type true = .ok () ↔
      isOptionalIntUnion field_type = true) ∧
    (isOptionalIntUnion field_type = false →
      validateAutoincrement field_name field_type true =
        .error (.typeError (autoincrementErrMsg field_name))) := by
  cases field_type <;> simp [validateAutoincrement, isOptionalIntUnion]

/-- Witness for C6: `Optional[int]` passes the validation, a bare `int`
fails it. -/
theorem validateAutoincrement_characterization_witness :
    validateAutoincrement "id" (.union [.int, .noneType]) true = .ok () ∧
    validateAutoincrement "id" (.scalar .int) true =
      .error (.typeError (autoincrementErrMsg "id")) :=
  ⟨(validateAutoincrement_characterization "id" (.union [.int, .noneType])).1.mpr (by decide),
   (validateAutoincrement_characterization "id" (.scalar .int)).2 (by decide)⟩

/-- C3: table synthesis for an entity with an empty primary-key list
raises a value error naming the entity's table, for every field list
(hence before any column is emitted), and under Python exception
semantics leaves the entity state (in particular its `__table__`) and
the metadata unchanged. -/
theorem createTable_no_pk_raises
    (cfg : EntityConfiguration) (st : EntityState)
    (type_hints : List (String × PyType)) (md : MetaData)
    (h1 : ¬ st.etype.tablename = "") (h2 : cfg.pks = []) :
    createTable cfg st type_hints md =
      .error (.valueError ("Table " ++ st.etype.tablename ++
        " must have at least one primary key")) ∧
    createTableRun cfg st type_hints md = (st, md, false) := by
  have hempty : cfg.pks.isEmpty = true := by simp [h2]
  constructor
  · simp [createTable, h1, hempty]
  · simp [createTableRun, createTable, h1, hempty]

/-- Witness for C3: an entity whose configuration never saw `has_key`. -/
theorem createTable_no_pk_raises_witness :
    createTable {} { etype := { name := "NoPrimaryKey", tablename := "noprimarykeys" } }
        [("id", .scalar .int)] { tables := [] } =
      .error (.valueError ("Table " ++ "noprimarykeys" ++
        " must have at least one primary key")) ∧
    createTableRun {} { etype := { name := "NoPrimaryKey", tablename := "noprimarykeys" } }
        [("id", .scalar .int)] { tables := [] } =
      ({ etype := { name := "NoPrimaryKey", tablename := "noprimarykeys" } },
        { tables := [] }, false) :=
  createTable_no_pk_raises {} { etype := { name := "NoPrimaryKey", tablename := "noprimarykeys" } }
    [("id", .scalar .int)] { tables := [] } (by decide) rfl

/-- C9 counterexample: an index configuration whose explicit name is the
empty string is reachable through `has_index(..., name="")`, yet
`create_index` ignores the given name (Python truthiness) and uses the
derived one instead, contradicting "named by the explicit name when one
was given". -/
theorem createIndex_empty_name_counterexample :
    hasIndex "Product" ["id", "sku"] {} ["sku"] false (some "") =
      ({ indexes := [{ columns := ["sku"], unique := false, name := some "" }] }, none) ∧
    createIndex { columns := ["sku"], unique := false, name := some "" }
      { name := "products",
        columns := [{ name := "sku", typ := .string none, primary_key := false,
                      nullable := false, unique := false, default := none,
                      server_default := none, autoincrement := .auto }] }
      "products" =
    .ok { name := "ix_products_sku", columns := ["sku"], unique := false } := by
  constructor
  · decide
  · decide

/-- C9 as amended: the created index is named by the explicit name when
a NON-EMPTY one was given (an empty-string name is treated like an
absent one and falls back to the derived
`{prefix}_{tableName}_{fields...}` name), and a zero-field `has_index`
call raises a value error with the configuration unchanged, before any
index configuration object is created. -/
theorem createIndex_naming
    (idx : IndexConfiguration) (table : Table) (table_name n : String)
    (entity_name : String) (annotation_keys : List String)
    (cfg : EntityConfiguration) (unique : Bool) (nameOpt : Option String)
    (hcols : idx.columns.all (fun c => table.columns.any (fun col => col.name = c)) = true) :
    (idx.name = some n → ¬ n = "" →
      createIndex idx table table_name =
        .ok { name := n, columns := idx.columns, unique := idx.unique }) ∧
    (idx.name = none →
      createIndex idx table table_name =
        .ok { name := autoIndexName idx table_name, columns := idx.columns,
              unique := idx.unique }) ∧
    (idx.name = some "" →
      createIndex idx table table_name =
        .ok { name := autoIndexName idx table_name, columns := idx.columns,
              unique := idx.unique }) ∧
    hasIndex entity_name annotation_keys cfg [] unique nameOpt =
      (cfg, some (.valueError "Must specify at least one field to index")) := by
  refine ⟨?_, ?_, ?_, ?_⟩
  · intro hn hne
    simp [createIndex, hcols, hn, hne]
  · intro hn
    simp [createIndex, hcols, hn]
  · intro hn
    simp [createIndex, hcols, hn]
  · simp [hasIndex]

/-- Witness for C9: a named unique index, a derived name, an
empty-string name, and the zero-field error, on a concrete table. -/
theorem createIndex_naming_witness :
    createIndex { columns := ["sku"], unique := true, name := some "custom" }
      { name := "products",
        columns := [{ name := "sku", typ := .string none, primary_key := false,
                      nullable := false, unique := false, default := none,
                      server_default := none, autoincrement := .auto }] }
      "products" =
      .ok { name := "custom", columns := ["sku"], unique := true } ∧
    createIndex { columns := ["sku"], unique := true, name := none }
      { name := "products",
        columns := [{ name := "sku", typ := .string none, primary_key := false,
                      nullable := false, unique := false, default := none,
                      server_default := none, autoincrement := .auto }] }
      "products" =
      .ok { name := autoIndexName { columns := ["sku"], unique := true, name := none } "products",
            columns := ["sku"], unique := true } ∧
    hasIndex "Product" ["id", "sku"] {} [] false none =
      ({}, some (.valueError "Must specify at least one field to index")) :=
  ⟨(createIndex_naming { columns := ["sku"], unique := true, name := some "custom" }
      { name := "products",
        columns := [{ name := "sku", typ := .string none, primary_key := false,
                      nullable := false, unique := false, default := none,
                      server_default := none, autoincrement := .auto }] }
      "products" "custom" "Product" ["id", "sku"] {} false none (by decide)).1 rfl (by decide),
   (createIndex_naming { columns := ["sku"], unique := true, name := none }
      { name := "products",
        columns := [{ name := "sku", typ := .string none, primary_key := false,
                      nullable := false, unique := false, default := none,
                      server_default := none, autoincrement := .auto }] }
      "products" "custom" "Product" ["id", "sku"] {} false none (by decide)).2.1 rfl,
   (createIndex_naming { columns := ["sku"], unique := true, name := none }
      { name := "products",
        columns := [{ name := "sku", typ := .string none, primary_key := false,
                      nullable := false, unique := false, default := none,
                      server_default := none, autoincrement := .auto }] }
      "products" "custom" "Product" ["id", "sku"] {} false none (by decide)).2.2.2⟩

/-- C10 counterexample: for the class `Buzz` (trailing z preceded by a
consonant) the decorator stores `buzzzes` — the code's dedicated
`+"zes"` branch — while the claim's rule set (trailing "z" appends "es")
would give `buzzes`. -/
theorem pluralize_consonant_z_counterexample :
    entityTablename "Buzz" none = "buzzzes" ∧
    claimPluralize (pyLower "Buzz") = "buzzes" ∧
    ¬ ("buzzzes" : String) = "buzzes" := by
  refine ⟨by decide, by decide, by decide⟩

/-- C10 as amended: `@entity` without an explicit `__tablename__` stores
the pluralized lowercase class name, where pluralization follows the
claim's rules except that a trailing "z" preceded by a consonant (in a
name of length > 1) appends "zes" instead of "es". -/
theorem pluralize_characterization (cn s : String) (p : Char) (rest : List Char) :
    entityTablename cn none = pluralize (pyLower cn) ∧
    (s.data = rest ++ [p, 'z'] → isVowel p = false → pluralize s = s ++ "zes") ∧
    ((strEndsWith s "z" && decide (1 < s.data.length) && prevCharNotVowel s) = false →
      pluralize s = claimPluralize s) := by
  refine ⟨rfl, ?_, ?_⟩
  · intro hdata hvowel
    have hrev : s.data.reverse = 'z' :: p :: rest.reverse := by
      simp [hdata]
    have hy : strEndsWith s "y" = false := by
      unfold strEndsWith
      rw [hrev]
      rfl
    have hz : strEndsWith s "z" = true := by
      unfold strEndsWith
      rw [hrev]
      rfl
    have hlen : decide (1 < s.data.length) = true := by
      rw [hdata]
      simp
    have hsplit : rest ++ [p, 'z'] = (rest ++ [p]) ++ ['z'] := by simp
    have hdrop : s.data.dropLast = rest ++ [p] := by
      rw [hdata, hsplit, List.dropLast_concat]
    have hprev : prevCharNotVowel s = true := by
      unfold prevCharNotVowel
      rw [hdrop]
      simp [List.getLast?_concat, hvowel]
    simp [pluralize, hy, hz, hlen, hprev]
    intro hle
    rw [show s.length = s.data.length from rfl, hdata] at hle
    simp at hle
  · intro hzf
    unfold pluralize claimPluralize
    rw [hzf]
    simp

/-- Witness for C10: `Category` (consonant+y), `buzz` (consonant+z) and
`post` (default rule). -/
theorem pluralize_characterization_witness :
    entityTablename "Category" none = pluralize (pyLower "Category") ∧
    pluralize "buzz" = "buzz" ++ "zes" ∧
    pluralize "post" = claimPluralize "post" :=
  ⟨(pluralize_characterization "Category" "x" 'a' []).1,
   (pluralize_characterization "Category" "buzz" 'z' ['b', 'u']).2.1 (by decide) (by decide),
   (pluralize_characterization "Category" "post" 'z' []).2.2 (by decide)⟩

/-- C8 counterexample: a one-to-many relationship whose related entity
is an unresolvable forward reference.  `with_many` raises a VALUE error
even though the current kind IS one-to-many, refuting the claimed "if
and only if"; the kind has moreover already been mutated to many-to-many
when the error is raised. -/
theorem withMany_resolution_failure_counterexample :
    withMany { navigation_name := "tags", relationship_type := .ONE_TO_MANY,
               entity_name := "Post" }
        (some "posts") [("tags", .generic (.fwd "Tag"))] [] =
      ({ navigation_name := "tags", relationship_type := .MANY_TO_MANY,
         entity_name := "Post" },
       some (.valueError ("Cannot resolve forward reference Tag for relationship tags on entity Post. Ensure the referenced entity Tag is defined at module level."))) := by
  decide

/-- C8 as amended: `with_many` raises the kind value error exactly when
the current kind is not one-to-many; on a one-to-many relationship it
mutates the kind to many-to-many in place and, when an inverse
navigation is supplied, records its field name as the back-populates
property — except that, when the related entity is not yet memoized and
cannot be determined (e.g. an unresolvable forward reference), the
determination error is raised with the kind already mutated. -/
theorem withMany_characterization
    (rel : RelationshipConfiguration) (nav : String)
    (anns : List (String × NavType)) (module_ns : List (String × EntityRef))
    (re : EntityRef) (e : BuilderError) :
    (¬ rel.relationship_type = RelationshipType.ONE_TO_MANY →
      withMany rel (some nav) anns module_ns =
        (rel, some (.valueError (withManyErrMsg rel.relationship_type))) ∧
      withMany rel none anns module_ns =
        (rel, some (.valueError (withManyErrMsg rel.relationship_type)))) ∧
    (rel.relationship_type = RelationshipType.ONE_TO_MANY →
      (withMany rel none anns module_ns =
        ({ rel with relationship_type := .MANY_TO_MANY }, none)) ∧
      (rel.related_entity = some re → re.annotation_keys.contains nav = true →
        withMany rel (some nav) anns module_ns =
          ({ rel with relationship_type := .MANY_TO_MANY,
                      inverse_prop := some nav, back_populates := some nav }, none)) ∧
      (rel.related_entity = none →
        determineRelatedEntity rel.entity_name anns module_ns rel.navigation_name = .error e →
        withMany rel (some nav) anns module_ns =
          ({ rel with relationship_type := .MANY_TO_MANY }, some e))) := by
  constructor
  · intro hne
    constructor <;> simp [withMany, hne]
  · intro heq
    refine ⟨?_, ?_, ?_⟩
    · simp [withMany, heq]
    · intro hre hkeys
      have hmem : nav ∈ re.annotation_keys := by simpa using hkeys
      simp [withMany, heq, hre, withManyProxyStep, proxyResolve, hmem]
    · intro hre hdet
      simp [withMany, heq, hre, hdet]

/-- Witness for C8: a many-to-one relationship raises; a one-to-many
with a memoized related entity records back-populates; a one-to-many
with a broken forward reference raises with the kind mutated. -/
theorem withMany_characterization_witness :
    withMany { navigation_name := "author", relationship_type := .MANY_TO_ONE,
               entity_name := "Post" } (some "posts") [] [] =
      ({ navigation_name := "author", relationship_type := .MANY_TO_ONE,
         entity_name := "Post" },
       some (.valueError (withManyErrMsg RelationshipType.MANY_TO_ONE))) ∧
    withMany { navigation_name := "tags", relationship_type := .ONE_TO_MANY,
               entity_name := "Post",
               related_entity := some { name := "Tag", tablename := "tags",
                                        annotation_keys := ["id", "posts"] } }
        (some "posts") [] [] =
      ({ navigation_name := "tags", relationship_type := .MANY_TO_MANY,
         entity_name := "Post",
         related_entity := some { name := "Tag", tablename := "tags",
                                  annotation_keys := ["id", "posts"] },
         inverse_prop := some "posts", back_populates := some "posts" }, none) ∧
    withMany { navigation_name := "tags", relationship_type := .ONE_TO_MANY,
               entity_name := "Post" }
        (some "posts") [("tags", .generic (.fwd "Tag"))] [] =
      ({ navigation_name := "tags", relationship_type := .MANY_TO_MANY,
         entity_name := "Post" },
       some (.valueError ("Cannot resolve forward reference Tag for relationship tags on entity Post. Ensure the referenced entity Tag is defined at module level."))) :=
  ⟨((withMany_characterization
      { navigation_name := "author", relationship_type := .MANY_TO_ONE, entity_name := "Post" }
      "posts" [] [] { name := "Tag", tablename := "tags", annotation_keys := [] }
      (.valueError "x")).1 (by decide)).1,
   ((withMany_characterization
      { navigation_name := "tags", relationship_type := .ONE_TO_MANY, entity_name := "Post",
        related_entity := some { name := "Tag", tablename := "tags",
                                 annotation_keys := ["id", "posts"] } }
      "posts" [] [] { name := "Tag", tablename := "tags", annotation_keys := ["id", "posts"] }
      (.valueError "x")).2 rfl).2.1 rfl (by decide),
   ((withMany_characterization
      { navigation_name := "tags", relationship_type := .ONE_TO_MANY, entity_name := "Post" }
      "posts" [("tags", .generic (.fwd "Tag"))] []
      { name := "Tag", tablename := "tags", annotation_keys := [] }
      (.valueError ("Cannot resolve forward reference Tag for relationship tags on entity Post. Ensure the referenced entity Tag is defined at module level."))).2
      rfl).2.2 rfl (by decide)⟩

theorem map_scalar_filter_length (args : List PyScalar) :
    ((args.map PyType.scalar).filter
        (fun a => !(a == PyType.scalar PyScalar.noneType))).length =
      (args.filter (fun a => !(a == PyScalar.noneType))).length := by
  induction args with
  | nil => rfl
  | cons a as ih =>
    by_cases ha : a = PyScalar.noneType <;> simp [List.filter_cons, ha, ih]

/-- C5: a union annotation with more than one non-None member raises a
type error whose message names the entity, the field and the declared
type (one message form when `None` is among the members, another when it
is not); a union of exactly one non-None type together with `None` —
i.e. `Optional[T]` — is accepted as nullable with base type `T`. -/
theorem classifyOptionality_union_characterization
    (entity_name field_name : String) (args : List PyScalar) (t : PyScalar)
    (hmulti : 1 < (args.filter (fun a => !(a == PyScalar.noneType))).length)
    (ht : ¬ t = PyScalar.noneType) :
    classifyOptionality entity_name field_name (.union args) =
      .error (.typeError
        (if args.contains PyScalar.noneType then
          unsupportedOptionalUnionMsg entity_name field_name (.union args)
        else unsupportedUnionMsg entity_name field_name (.union args))) ∧
    classifyOptionality entity_name field_name (.union [t, .noneType]) =
      .ok (true, .scalar t) := by
  constructor
  · unfold classifyOptionality
    by_cases hm : PyScalar.noneType ∈ args
    · have hlen := map_scalar_filter_length args
      simp [getOrigin, pyArgs, hm, hlen, hmulti]
    · simp [getOrigin, pyArgs, hm]
  · unfold classifyOptionality
    simp [getOrigin, pyArgs, ht]

/-- Witness for C5: `Union[int, str, None]` is rejected, `Optional[int]`
is accepted. -/
theorem classifyOptionality_union_characterization_witness :
    classifyOptionality "User" "tag" (.union [.int, .str, .noneType]) =
      .error (.typeError
        (if ([PyScalar.int, .str, .noneType] : List PyScalar).contains PyScalar.noneType then
          unsupportedOptionalUnionMsg "User" "tag" (.union [.int, .str, .noneType])
        else unsupportedUnionMsg "User" "tag" (.union [.int, .str, .noneType]))) ∧
    classifyOptionality "User" "tag" (.union [.int, .noneType]) =
      .ok (true, .scalar .int) :=
  classifyOptionality_union_characterization "User" "tag" [.int, .str, .noneType] .int
    (by decide) (by decide)

/-- C1 counterexample: for a `User` entity declaring `id: int | None`
and `name: str` with `has_key(id)`, table synthesis emits the `id`
column with `primary_key=True` AND `nullable=True` — refuting "every
primary-key column is non-nullable".  `has_key` installs a
`PropertyConfiguration` for every key field, and the property-config
nullability branch consults only the `required` flag, not primary-key
membership. -/
theorem optional_primary_key_nullable_counterexample :
    (createTableRun (hasKey "User" ["id", "name"] {} ["id"] false).1
        { etype := { name := "User", tablename := "users" } }
        [("id", .union [.int, .noneType]), ("name", .scalar .str)]
        { tables := [] }).1.table =
      some { name := "users",
             columns :=
               [{ name := "id", typ := .integer, primary_key := true, nullable := true,
                  unique := false, default := none, server_default := none,
                  autoincrement := .auto },
                { name := "name", typ := .string none, primary_key := false, nullable := false,
                  unique := false, default := none, server_default := none,
                  autoincrement := .auto }] } := by
  decide

/-- C1 as amended: an emitted column is nullable iff the declared
annotation is optional AND — when the field has a
`PropertyConfiguration` — it was not marked required (primary-key
membership is NOT consulted in that branch), or — when it has none — it
is not in the primary-key list.  Since `has_key` always installs a
`PropertyConfiguration`, an optional primary-key field not marked
required yields a nullable column; every non-optional field yields a
non-nullable column. -/
theorem processField_nullable_characterization
    (entity_name field_name : String) (pks : List String)
    (properties : List (String × PropertyConfiguration)) (field_type : PyType)
    (is_nullable : Bool) (nonnull_type : PyType) (col : SAColumn)
    (hclass : classifyOptionality entity_name field_name field_type = .ok (is_nullable, nonnull_type))
    (hok : processField entity_name pks properties field_name field_type = .ok (some col)) :
    col.nullable = (is_nullable &&
      (match alistLookup properties field_name with
       | some pc => !pc.required
       | none => !(pks.contains field_name))) := by
  unfold processField at hok
  by_cases h1 : strStartsWith field_name "_"
  · simp [h1] at hok
  · by_cases h2 : getOrigin field_type = some .list ∨ getOrigin field_type = some .dict ∨
        getOrigin field_type = some .set
    · simp [h1, h2] at hok
    · simp [h1, h2, hclass] at hok
      cases hp : alistLookup properties field_name with
      | none =>
        simp only [hp, validateAutoincrement, bind, Except.bind, Bool.not_false, if_true] at hok
        simp at hok
        subst hok
        simp
      | some pc =>
        simp only [hp, bind, Except.bind] at hok
        split at hok
        · simp at hok
        · split at hok
          · simp at hok
          · simp at hok
            subst hok
            simp

/-- Witness for C1 as amended: the optional primary-key field `id` with
its `has_key`-installed property configuration. -/
theorem processField_nullable_characterization_witness :
    ({ name := "id", typ := .integer, primary_key := true, nullable := true,
       unique := false, default := none, server_default := none,
       autoincrement := .auto } : SAColumn).nullable =
      (true &&
        (match alistLookup [("id", ({ property_name := "id" } : PropertyConfiguration))] "id" with
         | some pc => !pc.required
         | none => !((["id"] : List String).contains "id"))) :=
  processField_nullable_characterization "User" "id" ["id"]
    [("id", { property_name := "id" })] (.union [.int, .noneType]) true (.scalar .int)
    { name := "id", typ := .integer, primary_key := true, nullable := true,
      unique := false, default := none, server_default := none, autoincrement := .auto }
    (by decide) (by decide)

/-- C7: a successful table-synthesis run leaves the entity mapped; when
the entity type already carries a mapper (`st.mapped = true`), the
registration step is skipped (`map_imperatively` is not invoked, result
flag `false`) without error; and re-running the synthesis over the
already-mapped result succeeds — against any fresh metadata — again
without registering, so re-initialization is idempotent with respect to
mapping registration. -/
theorem createTable_mapping_idempotent
    (cfg : EntityConfiguration) (st st1 : EntityState)
    (type_hints : List (String × PyType)) (md md1 md2 : MetaData) (r1 : Bool)
    (h1 : createTable cfg st type_hints md = .ok (st1, md1, r1)) :
    st1.mapped = true ∧
    (st.mapped = true → r1 = false) ∧
    (∃ st2 md2', createTable cfg st1 type_hints md2 = .ok (st2, md2', false) ∧
      st2.mapped = true) := by
  unfold createTable at h1
  by_cases hn : st.etype.tablename = ""
  · simp [hn] at h1
  · by_cases hp : cfg.pks.isEmpty
    · simp [hn, hp] at h1
    · simp only [hn, hp, if_false, Bool.false_eq_true, if_neg] at h1
      cases hcols : processFields st.etype.name cfg.pks cfg.properties type_hints with
      | error e => rw [hcols] at h1; simp [bind, Except.bind] at h1
      | ok cols =>
        rw [hcols] at h1
        simp only [bind, Except.bind] at h1
        by_cases hm : st.mapped = true
        · rw [if_pos hm] at h1
          simp only [Except.ok.injEq, Prod.mk.injEq] at h1
          obtain ⟨hst1, hmd1, hr1⟩ := h1
          subst hst1
          refine ⟨by simp [hm], fun _ => hr1.symm, ?_⟩
          refine ⟨{ etype := st.etype, table := some { name := st.etype.tablename, columns := cols },
                    mapped := st.mapped },
                  { tables := md2.tables ++
                      [(st.etype.tablename, { name := st.etype.tablename, columns := cols })] },
                  ?_, by simp [hm]⟩
          unfold createTable
          simp [hn, hp, hcols, bind, Except.bind, hm]
        · rw [if_neg hm] at h1
          simp only [Except.ok.injEq, Prod.mk.injEq] at h1
          obtain ⟨hst1, hmd1, hr1⟩ := h1
          subst hst1
          refine ⟨rfl, fun hmm => absurd hmm hm, ?_⟩
          refine ⟨{ etype := st.etype, table := some { name := st.etype.tablename, columns := cols },
                    mapped := true },
                  { tables := md2.tables ++
                      [(st.etype.tablename, { name := st.etype.tablename, columns := cols })] },
                  ?_, rfl⟩
          unfold createTable
          simp [hn, hp, hcols, bind, Except.bind]

/-- Witness for C7: a `User` entity whose type already carries a mapper;
synthesis succeeds, skips registration, and a re-run registers nothing. -/
theorem createTable_mapping_idempotent_witness :
    ({ etype := { name := "User", tablename := "users" },
       table := some { name := "users",
                       columns := [{ name := "id", typ := .integer, primary_key := true,
                                     nullable := false, unique := false, default := none,
                                     server_default := none,
                                     autoincrement := .auto }] },
       mapped := true } : EntityState).mapped = true ∧
    (({ etype := { name := "User", tablename := "users" }, table := none,
        mapped := true } : EntityState).mapped = true → false = false) ∧
    (∃ st2 md2',
      createTable { pks := ["id"], properties := [("id", { property_name := "id" })] }
        { etype := { name := "User", tablename := "users" },
          table := some { name := "users",
                          columns := [{ name := "id", typ := .integer, primary_key := true,
                                        nullable := false, unique := false, default := none,
                                        server_default := none,
                                        autoincrement := .auto }] },
          mapped := true }
        [("id", .scalar .int)] { tables := [] } = .ok (st2, md2', false) ∧
      st2.mapped = true) :=
  createTable_mapping_idempotent
    { pks := ["id"], properties := [("id", { property_name := "id" })] }
    { etype := { name := "User", tablename := "users" }, table := none, mapped := true }
    { etype := { name := "User", tablename := "users" },
      table := some { name := "users",
                      columns := [{ name := "id", typ := .integer, primary_key := true,
                                    nullable := false, unique := false, default := none,
                                    server_default := none, autoincrement := .auto }] },
      mapped := true }
    [("id", .scalar .int)] { tables := [] }
    { tables := [("users",
        { name := "users",
          columns := [{ name := "id", typ := .integer, primary_key := true,
                        nullable := false, unique := false, default := none,
                        server_default := none, autoincrement := .auto }] })] }
    { tables := [] } false (by decide)

/-- C2: for two tabled entities with primary keys, against metadata not
yet holding the association table, `_create_association_table` creates
exactly one table — named by the two table names sorted lexicographically
and joined with an underscore, with exactly one foreign-key column per
side named `{table}_{pkColumnName}` referencing that side's primary key,
both marked primary key — and the call from the opposite side
(bidirectional declaration, either order) returns that same table
without adding another. -/
theorem association_table_convergence
    (e1 e2 : EntityState) (md : MetaData) (t1 t2 : Table)
    (cpk rpk : SAColumn) (cRest rRest : List SAColumn)
    (h1 : e1.table = some t1) (h2 : e2.table = some t2)
    (hpk1 : t1.columns.filter (fun c => c.primary_key) = cpk :: cRest)
    (hpk2 : t2.columns.filter (fun c => c.primary_key) = rpk :: rRest)
    (hfresh : alistLookup md.tables
      (assocTableName e1.etype.tablename e2.etype.tablename) = none) :
    ∃ assoc md',
      createAssociationTable e1 e2 md = .ok (assoc, md') ∧
      assoc.name = assocTableName e1.etype.tablename e2.etype.tablename ∧
      assoc.columns =
        [{ name := e1.etype.tablename ++ "_" ++ cpk.name, typ := cpk.typ, primary_key := true,
           nullable := false, unique := false, default := none, server_default := none,
           autoincrement := .auto,
           foreign_key := some (e1.etype.tablename ++ "." ++ cpk.name) },
         { name := e2.etype.tablename ++ "_" ++ rpk.name, typ := rpk.typ, primary_key := true,
           nullable := false, unique := false, default := none, server_default := none,
           autoincrement := .auto,
           foreign_key := some (e2.etype.tablename ++ "." ++ rpk.name) }] ∧
      md'.tables = md.tables ++ [(assoc.name, assoc)] ∧
      countTables md' (assocTableName e1.etype.tablename e2.etype.tablename) = 1 ∧
      createAssociationTable e2 e1 md' = .ok (assoc, md') := by
  refine ⟨{ name := assocTableName e1.etype.tablename e2.etype.tablename,
            columns :=
              [{ name := e1.etype.tablename ++ "_" ++ cpk.name, typ := cpk.typ,
                 primary_key := true, nullable := false, unique := false, default := none,
                 server_default := none, autoincrement := .auto,
                 foreign_key := some (e1.etype.tablename ++ "." ++ cpk.name) },
               { name := e2.etype.tablename ++ "_" ++ rpk.name, typ := rpk.typ,
                 primary_key := true, nullable := false, unique := false, default := none,
                 server_default := none, autoincrement := .auto,
                 foreign_key := some (e2.etype.tablename ++ "." ++ rpk.name) }] },
          _, ?_, rfl, rfl, rfl, ?_, ?_⟩
  · simp [createAssociationTable, hfresh, h1, h2, hpk1, hpk2]
  · simp [countTables, List.filter_append, alistLookup_none_filter _ _ hfresh]
  · have hcomm := assocTableName_comm e2.etype.tablename e1.etype.tablename
    have hlook := alistLookup_append_self md.tables
      (assocTableName e1.etype.tablename e2.etype.tablename)
      ({ name := assocTableName e1.etype.tablename e2.etype.tablename,
         columns :=
           [{ name := e1.etype.tablename ++ "_" ++ cpk.name, typ := cpk.typ,
              primary_key := true, nullable := false, unique := false, default := none,
              server_default := none, autoincrement := .auto,
              foreign_key := some (e1.etype.tablename ++ "." ++ cpk.name) },
            { name := e2.etype.tablename ++ "_" ++ rpk.name, typ := rpk.typ,
              primary_key := true, nullable := false, unique := false, default := none,
              server_default := none, autoincrement := .auto,
              foreign_key := some (e2.etype.tablename ++ "." ++ rpk.name) }] } : Table)
      hfresh
    simp [createAssociationTable, hcomm, hlook]

/-- Witness for C2: the `Post`/`Tag` scenario of the specification —
`posts` and `tags` converge on one `posts_tags` table with primary-key
foreign-key columns `posts_id` and `tags_id`. -/
theorem association_table_convergence_witness :
    ∃ assoc md',
      createAssociationTable
        { etype := { name := "Post", tablename := "posts" },
          table := some { name := "posts",
                          columns := [{ name := "id", typ := .integer, primary_key := true,
                                        nullable := true, unique := false, default := none,
                                        server_default := none, autoincrement := .auto }] },
          mapped := true }
        { etype := { name := "Tag", tablename := "tags" },
          table := some { name := "tags",
                          columns := [{ name := "id", typ := .integer, primary_key := true,
                                        nullable := true, unique := false, default := none,
                                        server_default := none, autoincrement := .auto }] },
          mapped := true }
        { tables := [] } = .ok (assoc, md') ∧
      assoc.name = assocTableName "posts" "tags" ∧
      assoc.columns =
        [{ name := "posts" ++ "_" ++ "id", typ := .integer, primary_key := true,
           nullable := false, unique := false, default := none, server_default := none,
           autoincrement := .auto, foreign_key := some ("posts" ++ "." ++ "id") },
         { name := "tags" ++ "_" ++ "id", typ := .integer, primary_key := true,
           nullable := false, unique := false, default := none, server_default := none,
           autoincrement := .auto, foreign_key := some ("tags" ++ "." ++ "id") }] ∧
      md'.tables = ([] : List (String × Table)) ++ [(assoc.name, assoc)] ∧
      countTables md' (assocTableName "posts" "tags") = 1 ∧
      createAssociationTable
        { etype := { name := "Tag", tablename := "tags" },
          table := some { name := "tags",
                          columns := [{ name := "id", typ := .integer, primary_key := true,
                                        nullable := true, unique := false, default := none,
                                        server_default := none, autoincrement := .auto }] },
          mapped := true }
        { etype := { name := "Post", tablename := "posts" },
          table := some { name := "posts",
                          columns := [{ name := "id", typ := .integer, primary_key := true,
                                        nullable := true, unique := false, default := none,
                                        server_default := none, autoincrement := .auto }] },
          mapped := true }
        md' = .ok (assoc, md') :=
  association_table_convergence
    { etype := { name := "Post", tablename := "posts" },
      table := some { name := "posts",
                      columns := [{ name := "id", typ := .integer, primary_key := true,
                                    nullable := true, unique := false, default := none,
                                    server_default := none, autoincrement := .auto }] },
      mapped := true }
    { etype := { name := "Tag", tablename := "tags" },
      table := some { name := "tags",
                      columns := [{ name := "id", typ := .integer, primary_key := true,
                                    nullable := true, unique := false, default := none,
                                    server_default := none, autoincrement := .auto }] },
      mapped := true }
    { tables := [] }
    { name := "posts",
      columns := [{ name := "id", typ := .integer, primary_key := true, nullable := true,
                    unique := false, default := none, server_default := none,
                    autoincrement := .auto }] }
    { name := "tags",
      columns := [{ name := "id", typ := .integer, primary_key := true, nullable := true,
                    unique := false, default := none, server_default := none,
                    autoincrement := .auto }] }
    { name := "id", typ := .integer, primary_key := true, nullable := true, unique := false,
      default := none, server_default := none, autoincrement := .auto }
    { name := "id", typ := .integer, primary_key := true, nullable := true, unique := false,
      default := none, server_default := none, autoincrement := .auto }
    [] [] rfl rfl (by decide) (by decide) (by decide)

end Effigy
